import Mathlib

/-!
Verification of the indexing and retrieval engine of `lanchain_helper.py`
(SharePoint document Q&A).  Scores are modelled as rationals (the code only
compares them against the literal threshold `0.6`), a langchain `Document`
as text plus a string-keyed metadata map, and the stateful index lifecycle
(`os.path.exists`, `FAISS.load_local`, `save_local`) as explicit state
passing with an instrumented rebuild counter.
-/

namespace ErpSharepoint

/-- A langchain `Document`: chunk/document text plus a string-keyed metadata
map.  The map is an association list where the most recent binding of a key
comes first. -/
structure Doc where
  page_content : String
  metadata : List (String × String)
deriving DecidableEq

/-- Python `metadata.get(key)`: the value currently bound to `key`, if any. -/
def metaGet (m : List (String × String)) (k : String) : Option String :=
  (m.find? (fun p => p.1 == k)).map (fun p => p.2)

/-- Python `metadata[key] = v`: overwrite the binding of `key`. -/
def metaSet (m : List (String × String)) (k v : String) : List (String × String) :=
  (k, v) :: m.filter (fun p => p.1 != k)

/-- A Python dict built left to right (a later binding of a key overwrites an
earlier one), queried with `.get`: lookup returns the last binding of `k`. -/
def dictGet (pairs : List (String × String)) (k : String) : Option String :=
  ((pairs.filter (fun p => p.1 == k)).getLast?).map (fun p => p.2)

/-- Line 138: the message returned when the neighbor set is empty. -/
def noInfoMsg : String := "❓ Apologies, I couldn\x27t find relevant information."

/-- Lines 142 and 146: the below-threshold no-match message, built from the
lowercased query. -/
def noMatchMsg (query : String) : String :=
  "❌ Sorry, we do not offer information on \x27" ++ query.toLower ++ "\x27 at this time."

/-- Line 144: the accepted-match answer message, built from the chunk text. -/
def answerMsg (text : String) : String :=
  "🔍 **Answer:** " ++ text

/-- Lines 140-146 of `get_similar_answer_from_documents`: the loop over the
scored neighbors.  Both branches of the loop body `return`, so the loop only
ever inspects the head candidate, and the trailing no-match `return` on line
146 is reached only when the list is empty. -/
def scanResults (query : String) : List (Doc × ℚ) → String × Option String
  | [] => (noMatchMsg query, none)
  | (doc, score) :: _ =>
    if score < 0.6 then
      (noMatchMsg query, none)
    else
      (answerMsg doc.page_content,
       some ((metaGet doc.metadata "full_content").getD doc.page_content))

/-- Lines 135-146: the query step once the vector store is loaded, applied to
the scored results of `similarity_search_with_score(query, k=3)`. -/
def queryAnswer (query : String) (docs_with_scores : List (Doc × ℚ)) :
    String × Option String :=
  if docs_with_scores.isEmpty then (noInfoMsg, none)
  else scanResults query docs_with_scores

/-- A SharePoint `.txt` drive item as the fetch step sees it: file name and
downloaded text content. -/
structure SrcFile where
  name : String
  content : String
deriving DecidableEq

/-- Outcome of the network interaction inside
`fetch_txt_files_from_sharepoint`: either listing and downloading succeed
with these drive items, or an HTTP error (`requests.HTTPError`) or some
other exception is raised partway through. -/
inductive FetchOutcome where
  | ok (files : List SrcFile)
  | httpError
  | otherError
deriving DecidableEq

/-- Lines 76-79: `Document(page_content=text, metadata={"source": name,
"full_content": text})` for one downloaded file. -/
def mkFetchedDoc (f : SrcFile) : Doc :=
  { page_content := f.content
    metadata := [("source", f.name), ("full_content", f.content)] }

/-- Python `s.endswith(suffix)`, as a character-level suffix check. -/
def pyEndsWith (s suffix : String) : Bool :=
  suffix.data.isSuffixOf s.data

/-- The function `fetch_txt_files_from_sharepoint` (lines 43-92): on success the items
whose names end in `.txt` are downloaded and wrapped as documents; an HTTP
error or any other exception is caught and an empty list is returned
instead of propagating the failure. -/
def fetch_txt_files_from_sharepoint : FetchOutcome → List Doc
  | .ok files => (files.filter (fun f => pyEndsWith f.name ".txt")).map mkFetchedDoc
  | .httpError => []
  | .otherError => []

/-- Modelled from the spec: the chunk-window recursion of the library text
splitter (`RecursiveCharacterTextSplitter(chunk_size=500, chunk_overlap=50)`
on line 102), whose code is not part of this repository.  Spec 4.1: split
into overlapping windows of a fixed target size (500 characters) with a
fixed overlap (50); a document shorter than the target window yields exactly
one chunk equal to the whole document. -/
def splitWindows (cs : List Char) : List (List Char) :=
  if _hle : cs.length ≤ 500 then [cs]
  else cs.take 500 :: splitWindows (cs.drop 450)
termination_by cs.length
decreasing_by simp only [List.length_drop]; omega

/-- Chunk one document text into character windows. -/
def splitText (text : String) : List String :=
  (splitWindows text.data).map (fun cs => String.mk cs)

/-- Modelled from the spec: the library splitter method `split_documents`
(line 108) splits each document text and copies the parent document's
metadata onto every chunk it produces (the `source` key that the stamping
pass on lines 111-113 relies on). -/
def split_documents (documents : List Doc) : List Doc :=
  documents.flatMap (fun d =>
    (splitText d.page_content).map (fun t =>
      { page_content := t, metadata := d.metadata }))

/-- Lines 104-113 of `index_documents`: build the `source → full_content`
map from the fetched documents, split them into chunks, then stamp every
chunk's `full_content` metadata from the map (missing lookups default to
the empty string).  The map comprehension reads `doc.metadata["source"]`
and `doc.metadata["full_content"]` directly; on fetched documents both keys
are always present, so the `getD ""` defaults below are never taken there. -/
def stampedChunks (documents : List Doc) : List Doc :=
  let source_to_full := documents.map (fun d =>
    ((metaGet d.metadata "source").getD "", (metaGet d.metadata "full_content").getD ""))
  let chunks := split_documents documents
  chunks.map (fun c =>
    let source := metaGet c.metadata "source"
    { c with metadata := (metaSet c.metadata "full_content"
          ((source.bind (fun s => dictGet source_to_full s)).getD "")) })

/-- The fatal errors the engine can raise. -/
inductive Err where
  /-- Line 100: `Exception("❌ No .txt files found to index.")`. -/
  | noTxtFiles
  /-- Line 133: the retried `FAISS.load_local` raised again. -/
  | loadFailed
deriving DecidableEq

/-- The observable index state threaded through a call: whether
`./vector_index` exists on disk, how many build-and-save cycles have
completed (instrumentation for counting rebuilds), and how many
`FAISS.load_local` attempts have been made (instrumentation selecting the
outcome of each attempt). -/
structure St where
  indexExists : Bool
  rebuilds : ℕ
  loadAttempts : ℕ
deriving DecidableEq

/-- The function `index_documents` (lines 95-117) given the already-fetched documents:
raise `noTxtFiles` when the fetch produced nothing, otherwise chunk, stamp,
embed (`FAISS.from_documents(stampedChunks documents, embeddings)`) and
`save_local("./vector_index")` — modelled as the index now existing and one
more completed rebuild; the store's chunk content is `stampedChunks`. -/
def index_documents (fetched : List Doc) (s : St) : St × Except Err Unit :=
  if fetched.isEmpty then (s, .error .noTxtFiles)
  else ({ s with indexExists := true, rebuilds := s.rebuilds + 1 }, .ok ())

/-- The ambient capabilities of one query call: what the SharePoint fetch
would yield, whether the n-th `FAISS.load_local` attempt of the process
succeeds, and the scored neighbors `similarity_search_with_score(query, k=3)`
returns on the loaded store. -/
structure Env where
  fetchOut : FetchOutcome
  loadOk : ℕ → Bool
  results : List (Doc × ℚ)

/-- One `FAISS.load_local("./vector_index", ...)` attempt (line 129 or 133):
consume the next load outcome. -/
def load_local (env : Env) (s : St) : St × Bool :=
  ({ s with loadAttempts := s.loadAttempts + 1 }, env.loadOk s.loadAttempts)

/-- The function `get_similar_answer_from_documents` (lines 120-146): rebuild when
`./vector_index` is missing, attempt to load it, on a load failure rebuild
once and retry the load once (line 128-133: the retried load sits outside
any `try`), then run the scored query.  Python exceptions propagate as
`Except.error`; the returned `St` records the on-disk state and the
instrumented rebuild/load counts even when an exception escapes. -/
def get_similar_answer_from_documents (env : Env) (query : String) (s : St) :
    St × Except Err (String × Option String) :=
  let fetched := fetch_txt_files_from_sharepoint env.fetchOut
  match (if s.indexExists then (s, Except.ok ()) else index_documents fetched s) with
  | (s1, .error e) => (s1, .error e)
  | (s1, .ok ()) =>
    let first_load := load_local env s1
    if first_load.2 then
      (first_load.1, .ok (queryAnswer query env.results))
    else
      match index_documents fetched first_load.1 with
      | (s3, .error e) => (s3, .error e)
      | (s3, .ok ()) =>
        let retry_load := load_local env s3
        if retry_load.2 then
          (retry_load.1, .ok (queryAnswer query env.results))
        else (retry_load.1, .error .loadFailed)

/-! ### Distinctness of the three user-visible messages

The three message families produced by the query step start with three
different characters, so no two of them can ever coincide, whatever the
query or chunk text. -/

lemma data_ne_nil_of_append (a b : String) (ha : a.data ≠ []) : (a ++ b).data ≠ [] := by
  rw [String.data_append]
  exact fun h => ha (List.append_eq_nil.mp h).1

lemma head_append (a b : String) (ha : a.data ≠ []) :
    (a ++ b).data.head? = a.data.head? := by
  rw [String.data_append]
  exact List.head?_append_of_ne_nil a.data ha

lemma noInfoMsg_head : noInfoMsg.data.head? = some '❓' := by decide

lemma noMatchMsg_head (q : String) : (noMatchMsg q).data.head? = some '❌' := by
  have hA : ("❌ Sorry, we do not offer information on \x27" : String).data ≠ [] := by decide
  show ((("❌ Sorry, we do not offer information on \x27" ++ q.toLower) ++
      "\x27 at this time.")).data.head? = some '❌'
  rw [head_append _ _ (data_ne_nil_of_append _ _ hA), head_append _ _ hA]
  decide

lemma answerMsg_head (t : String) : (answerMsg t).data.head? = some '🔍' := by
  have hA : ("🔍 **Answer:** " : String).data ≠ [] := by decide
  show (("🔍 **Answer:** " ++ t)).data.head? = some '🔍'
  rw [head_append _ _ hA]
  decide

lemma noMatchMsg_ne_noInfoMsg (q : String) : noMatchMsg q ≠ noInfoMsg := by
  intro h
  have h2 : (noMatchMsg q).data.head? = noInfoMsg.data.head? :=
    congrArg (fun s => s.data.head?) h
  rw [noMatchMsg_head, noInfoMsg_head] at h2
  exact absurd h2 (by decide)

lemma answerMsg_ne_noInfoMsg (t : String) : answerMsg t ≠ noInfoMsg := by
  intro h
  have h2 : (answerMsg t).data.head? = noInfoMsg.data.head? :=
    congrArg (fun s => s.data.head?) h
  rw [answerMsg_head, noInfoMsg_head] at h2
  exact absurd h2 (by decide)

lemma answerMsg_ne_noMatchMsg (t q : String) : answerMsg t ≠ noMatchMsg q := by
  intro h
  have h2 : (answerMsg t).data.head? = (noMatchMsg q).data.head? :=
    congrArg (fun s => s.data.head?) h
  rw [answerMsg_head, noMatchMsg_head] at h2
  exact absurd h2 (by decide)

/-! ### Claims C1-C4: the query step -/

/-- The single chunk of the spec example for C1. -/
def c1Chunk : Doc :=
  { page_content := "chunk text"
    metadata := [("source", "a.txt"), ("full_content", "chunk full text")] }

/-- C1: the claim says a candidate whose score is strictly below the
threshold is accepted and its text returned; evaluating the code at the
spec example — a single candidate scoring 0.3 against the hardcoded
threshold 0.6 — the code instead returns the below-threshold no-match
message with a null document, because its comparison treats `score < 0.6`
as not relevant. -/
theorem c1_spec_example_gets_no_match :
    queryAnswer "q" [(c1Chunk, 0.3)] = (noMatchMsg "q", none) ∧
    noMatchMsg "q" ≠ answerMsg c1Chunk.page_content := by
  constructor
  · have h3 : (0.3 : ℚ) < 0.6 := by norm_num
    simp [queryAnswer, scanResults, h3]
  · exact fun h => answerMsg_ne_noMatchMsg _ _ h.symm

def c2DocNear : Doc :=
  { page_content := "near text"
    metadata := [("source", "a.txt"), ("full_content", "near full")] }

def c2DocFar : Doc :=
  { page_content := "far text"
    metadata := [("source", "b.txt"), ("full_content", "far full")] }

/-- C2: the claim says the no-match message is returned exactly when no
candidate among the top-k clears the threshold; evaluating the code on a
result list `[(near, 0.7), (far, 0.9)]` (ascending scores, neither below
0.6) the code does not return the no-match message — it accepts the head
candidate and returns its text and full document, because both branches of
the loop body return on the first iteration. -/
theorem c2_first_candidate_decides :
    queryAnswer "q" [(c2DocNear, 0.7), (c2DocFar, 0.9)] =
      (answerMsg "near text", some "near full") ∧
    answerMsg "near text" ≠ noMatchMsg "q" := by
  constructor
  · have h7 : ¬ (0.7 : ℚ) < 0.6 := by norm_num
    simp [queryAnswer, scanResults, h7, c2DocNear, answerMsg, metaGet]
  · exact answerMsg_ne_noMatchMsg _ _

/-- C3: an empty neighbor set yields the literal no-information message
with a null document, and that message is distinct from the
below-threshold no-match message. -/
theorem c3_empty_results_no_info (query : String) :
    queryAnswer query [] = (noInfoMsg, none) ∧ noInfoMsg ≠ noMatchMsg query :=
  ⟨rfl, fun h => noMatchMsg_ne_noInfoMsg query h.symm⟩

/-- C4: the returned pair is consistent — a no-information or no-match
message never comes with a non-null document, and an accepted-match answer
message never comes with a null document. -/
theorem c4_result_consistency (query : String) (results : List (Doc × ℚ)) :
    ¬((queryAnswer query results).1 = noInfoMsg ∧ (queryAnswer query results).2 ≠ none) ∧
    ¬((queryAnswer query results).1 = noMatchMsg query ∧ (queryAnswer query results).2 ≠ none) ∧
    ¬((∃ t, (queryAnswer query results).1 = answerMsg t) ∧ (queryAnswer query results).2 = none) := by
  rcases results with _ | ⟨⟨doc, score⟩, rest⟩
  · refine ⟨?_, ?_, ?_⟩
    · exact fun h => h.2 rfl
    · exact fun h => h.2 rfl
    · rintro ⟨⟨t, ht⟩, -⟩
      exact answerMsg_ne_noInfoMsg t ht.symm
  · by_cases hs : score < 0.6
    · have he : queryAnswer query ((doc, score) :: rest) = (noMatchMsg query, none) := by
        simp [queryAnswer, scanResults, hs]
      rw [he]
      refine ⟨?_, ?_, ?_⟩
      · exact fun h => h.2 rfl
      · exact fun h => h.2 rfl
      · rintro ⟨⟨t, ht⟩, -⟩
        exact answerMsg_ne_noMatchMsg t query ht.symm
    · have he : queryAnswer query ((doc, score) :: rest) =
          (answerMsg doc.page_content,
           some ((metaGet doc.metadata "full_content").getD doc.page_content)) := by
        simp [queryAnswer, scanResults, hs]
      rw [he]
      refine ⟨?_, ?_, ?_⟩
      · exact fun h => answerMsg_ne_noInfoMsg doc.page_content h.1
      · exact fun h => answerMsg_ne_noMatchMsg doc.page_content query h.1
      · rintro ⟨-, h⟩
        exact Option.noConfusion h

/-! ### Claims C8-C9: chunking and the full-text round trip -/

/-- C8: a document whose text is shorter than the 500-character chunk
window is split into exactly one chunk whose text is the whole document
text, and `split_documents` on such a document yields exactly that one
chunk (with the parent metadata). -/
theorem c8_short_doc_single_chunk (d : Doc) (h : d.page_content.length < 500) :
    splitText d.page_content = [d.page_content] ∧ split_documents [d] = [d] := by
  have hle : d.page_content.data.length ≤ 500 := by
    have hlen : d.page_content.length = d.page_content.data.length := rfl
    omega
  have h1 : splitText d.page_content = [d.page_content] := by
    have hsl : d.page_content.length ≤ 500 := Nat.le_of_lt h
    unfold splitText
    rw [splitWindows]
    simp [hle, hsl]
  exact ⟨h1, by simp [split_documents, h1]⟩

theorem c8_witness :
    ({ page_content := "hello", metadata := [] } : Doc).page_content.length < 500 ∧
    (splitText "hello" = ["hello"] ∧
     split_documents [{ page_content := "hello", metadata := [] }] =
       [{ page_content := "hello", metadata := [] }]) :=
  ⟨by decide,
   c8_short_doc_single_chunk { page_content := "hello", metadata := [] } (by decide)⟩

lemma mem_split_documents_metadata {c : Doc} {documents : List Doc}
    (h : c ∈ split_documents documents) : ∃ d ∈ documents, c.metadata = d.metadata := by
  simp only [split_documents, List.mem_flatMap, List.mem_map] at h
  obtain ⟨d, hd, t, -, rfl⟩ := h
  exact ⟨d, hd, rfl⟩

lemma filter_key_eq (l : List SrcFile) (g : SrcFile)
    (hnd : (l.map SrcFile.name).Nodup) (hg : g ∈ l) :
    (l.map (fun f => (f.name, f.content))).filter (fun p => p.1 == g.name) =
      [(g.name, g.content)] := by
  induction l with
  | nil => cases hg
  | cons a l ih =>
    simp only [List.map_cons, List.nodup_cons, List.mem_map] at hnd
    rw [List.map_cons, List.filter_cons]
    rcases List.mem_cons.mp hg with rfl | hgl
    · rw [if_pos (by simp)]
      have hrest : (l.map (fun f => (f.name, f.content))).filter
          (fun p => p.1 == g.name) = [] := by
        rw [List.filter_eq_nil_iff]
        intro p hp
        simp only [List.mem_map] at hp
        obtain ⟨f, hf, rfl⟩ := hp
        simp only [beq_eq_false_iff_ne, ne_eq, Bool.not_eq_true]
        intro hbeq
        exact hnd.1 ⟨f, hf, hbeq⟩
      rw [hrest]
    · have hne : a.name ≠ g.name := by
        intro he
        exact hnd.1 ⟨g, hgl, he.symm⟩
      rw [if_neg (by simpa using hne)]
      exact ih hnd.2 hgl

lemma dictGet_of_nodup_keys (l : List SrcFile) (g : SrcFile)
    (hnd : (l.map SrcFile.name).Nodup) (hg : g ∈ l) :
    dictGet (l.map (fun f => (f.name, f.content))) g.name = some g.content := by
  unfold dictGet
  rw [filter_key_eq l g hnd hg]
  rfl

lemma source_to_full_eq (files' : List SrcFile) :
    (files'.map mkFetchedDoc).map (fun d =>
      ((metaGet d.metadata "source").getD "",
       (metaGet d.metadata "full_content").getD "")) =
    files'.map (fun f => (f.name, f.content)) := by
  rw [List.map_map]
  apply List.map_congr_left
  intro f _
  simp [mkFetchedDoc, metaGet, List.find?]

/-- C9: for every chunk produced by the indexing pipeline from a set of
fetched files with distinct names, the chunk's `full_content` metadata is
exactly the content of the file whose name matches the chunk's `source`
metadata: the chunk carries a source name of one of the files, and its
stamped full text agrees with every file of that name. -/
theorem c9_full_content_roundtrip (files : List SrcFile)
    (hnd : (files.map SrcFile.name).Nodup) :
    ∀ c ∈ stampedChunks (fetch_txt_files_from_sharepoint (.ok files)),
      (∃ f ∈ files, metaGet c.metadata "source" = some f.name) ∧
      (∀ f ∈ files, metaGet c.metadata "source" = some f.name →
        metaGet c.metadata "full_content" = some f.content) := by
  intro c hc
  simp only [stampedChunks, List.mem_map] at hc
  obtain ⟨c0, hc0, rfl⟩ := hc
  obtain ⟨d, hd, hmeta⟩ := mem_split_documents_metadata hc0
  have hdg : ∃ g ∈ files.filter (fun f => pyEndsWith f.name ".txt"),
      mkFetchedDoc g = d := by
    simpa [fetch_txt_files_from_sharepoint, List.mem_map] using hd
  obtain ⟨g, hgf, rfl⟩ := hdg
  have hgmem : g ∈ files := List.mem_of_mem_filter hgf
  have hndf : ((files.filter (fun f => pyEndsWith f.name ".txt")).map SrcFile.name).Nodup :=
    ((List.filter_sublist files).map SrcFile.name).nodup hnd
  have hdict :
      dictGet ((files.filter (fun f => pyEndsWith f.name ".txt")).map
        (fun f => (f.name, f.content))) g.name = some g.content :=
    dictGet_of_nodup_keys _ g hndf hgf
  have hsrc0 : metaGet c0.metadata "source" = some g.name := by
    rw [hmeta]
    simp [mkFetchedDoc, metaGet, List.find?]
  have hstamped :
      (metaSet c0.metadata "full_content"
        (((metaGet c0.metadata "source").bind (fun s =>
          dictGet ((fetch_txt_files_from_sharepoint (.ok files)).map (fun d =>
            ((metaGet d.metadata "source").getD "",
             (metaGet d.metadata "full_content").getD ""))) s)).getD "")) =
      [("full_content", g.content), ("source", g.name)] := by
    rw [hsrc0]
    show metaSet c0.metadata "full_content"
        ((dictGet ((fetch_txt_files_from_sharepoint (.ok files)).map (fun d =>
          ((metaGet d.metadata "source").getD "",
           (metaGet d.metadata "full_content").getD ""))) g.name).getD "") = _
    rw [show fetch_txt_files_from_sharepoint (.ok files) =
      (files.filter (fun f => pyEndsWith f.name ".txt")).map mkFetchedDoc from rfl]
    rw [source_to_full_eq, hdict]
    rw [hmeta]
    simp [metaSet, mkFetchedDoc, List.filter]
  constructor
  · refine ⟨g, hgmem, ?_⟩
    show metaGet (metaSet c0.metadata "full_content" _) "source" = some g.name
    rw [hstamped]
    simp [metaGet, List.find?]
  · intro f hf hsrc
    have hname : f.name = g.name := by
      rw [show metaGet (metaSet c0.metadata "full_content" _) "source" = some g.name from by
        rw [hstamped]; simp [metaGet, List.find?]] at hsrc
      exact (Option.some.injEq ..).mp hsrc.symm
    have : f = g := List.inj_on_of_nodup_map hnd hf hgmem hname
    subst this
    show metaGet (metaSet c0.metadata "full_content" _) "full_content" = some f.content
    rw [hstamped]
    simp [metaGet, List.find?]

theorem c9_witness :
    (([⟨"a.txt", "alpha"⟩, ⟨"b.txt", "beta"⟩] : List SrcFile).map SrcFile.name).Nodup ∧
    (∀ c ∈ stampedChunks (fetch_txt_files_from_sharepoint
        (.ok [⟨"a.txt", "alpha"⟩, ⟨"b.txt", "beta"⟩])),
      (∃ f ∈ ([⟨"a.txt", "alpha"⟩, ⟨"b.txt", "beta"⟩] : List SrcFile),
        metaGet c.metadata "source" = some f.name) ∧
      (∀ f ∈ ([⟨"a.txt", "alpha"⟩, ⟨"b.txt", "beta"⟩] : List SrcFile),
        metaGet c.metadata "source" = some f.name →
        metaGet c.metadata "full_content" = some f.content)) :=
  ⟨by decide, c9_full_content_roundtrip [⟨"a.txt", "alpha"⟩, ⟨"b.txt", "beta"⟩] (by decide)⟩

/-! ### Claims C5-C7 and C10: the index lifecycle state machine -/

/-- C5: with a persisted index present whose load fails, the call triggers
exactly one full re-index (`rebuilds` grows by one), retries the load
exactly once (`loadAttempts` grows by two), and when the retried load also
fails the failure is fatal and propagated, with no further rebuild or
retry. -/
theorem c5_rebuild_once_then_fatal (env : Env) (query : String) (s : St)
    (hex : s.indexExists = true)
    (hfetch : fetch_txt_files_from_sharepoint env.fetchOut ≠ [])
    (h0 : env.loadOk s.loadAttempts = false)
    (h1 : env.loadOk (s.loadAttempts + 1) = false) :
    get_similar_answer_from_documents env query s =
      ({ indexExists := true, rebuilds := s.rebuilds + 1,
         loadAttempts := s.loadAttempts + 2 },
       .error .loadFailed) := by
  have hne : (fetch_txt_files_from_sharepoint env.fetchOut).isEmpty = false := by
    simpa [List.isEmpty_iff] using hfetch
  simp [get_similar_answer_from_documents, index_documents, load_local,
    hex, h0, h1, hne]

theorem c5_witness :
    get_similar_answer_from_documents
        { fetchOut := .ok [{ name := "a.txt", content := "hello" }],
          loadOk := fun _ => false, results := [] } "q"
        { indexExists := true, rebuilds := 0, loadAttempts := 0 } =
      ({ indexExists := true, rebuilds := 1, loadAttempts := 2 },
       .error .loadFailed) :=
  c5_rebuild_once_then_fatal _ "q" _ rfl (by decide) rfl rfl

/-- C6: with no persisted index and a non-empty fetched corpus, one call
performs exactly one build-and-save cycle and then answers, and a second
call on the resulting state answers without any further rebuild. -/
theorem c6_single_rebuild_then_reuse (env : Env) (query : String) (s : St)
    (hex : s.indexExists = false)
    (hfetch : fetch_txt_files_from_sharepoint env.fetchOut ≠ [])
    (hload : ∀ n, env.loadOk n = true) :
    get_similar_answer_from_documents env query s =
      ({ indexExists := true, rebuilds := s.rebuilds + 1,
         loadAttempts := s.loadAttempts + 1 },
       .ok (queryAnswer query env.results)) ∧
    get_similar_answer_from_documents env query
        { indexExists := true, rebuilds := s.rebuilds + 1,
          loadAttempts := s.loadAttempts + 1 } =
      ({ indexExists := true, rebuilds := s.rebuilds + 1,
         loadAttempts := s.loadAttempts + 2 },
       .ok (queryAnswer query env.results)) := by
  have hne : (fetch_txt_files_from_sharepoint env.fetchOut).isEmpty = false := by
    simpa [List.isEmpty_iff] using hfetch
  constructor
  · simp [get_similar_answer_from_documents, index_documents, load_local,
      hex, hne, hload]
  · simp [get_similar_answer_from_documents, index_documents, load_local,
      hne, hload]

theorem c6_witness :
    get_similar_answer_from_documents
        { fetchOut := .ok [{ name := "a.txt", content := "hello" }],
          loadOk := fun _ => true, results := [] } "q"
        { indexExists := false, rebuilds := 0, loadAttempts := 0 } =
      ({ indexExists := true, rebuilds := 1, loadAttempts := 1 },
       .ok (noInfoMsg, none)) ∧
    get_similar_answer_from_documents
        { fetchOut := .ok [{ name := "a.txt", content := "hello" }],
          loadOk := fun _ => true, results := [] } "q"
        { indexExists := true, rebuilds := 1, loadAttempts := 1 } =
      ({ indexExists := true, rebuilds := 1, loadAttempts := 2 },
       .ok (noInfoMsg, none)) :=
  c6_single_rebuild_then_reuse
    { fetchOut := .ok [{ name := "a.txt", content := "hello" }],
      loadOk := fun _ => true, results := [] } "q"
    { indexExists := false, rebuilds := 0, loadAttempts := 0 }
    rfl (by decide) (fun _ => rfl)

/-- C7: when the fetch yields zero documents, the triggered indexing fails
with the fatal no-files-to-index error, the error propagates (the state is
unchanged: no build completed), and the query is not answered; the outcome
is distinguishable from a successful query over an empty result set. -/
theorem c7_empty_corpus_fatal (env : Env) (query : String) (s : St)
    (hex : s.indexExists = false)
    (hfetch : fetch_txt_files_from_sharepoint env.fetchOut = []) :
    get_similar_answer_from_documents env query s = (s, .error .noTxtFiles) ∧
    (Except.error Err.noTxtFiles : Except Err (String × Option String)) ≠
      .ok (queryAnswer query []) := by
  constructor
  · simp [get_similar_answer_from_documents, index_documents, hex, hfetch]
  · exact fun h => Except.noConfusion h

theorem c7_witness :
    get_similar_answer_from_documents
        { fetchOut := .ok [], loadOk := fun _ => true, results := [] } "q"
        { indexExists := false, rebuilds := 0, loadAttempts := 0 } =
      ({ indexExists := false, rebuilds := 0, loadAttempts := 0 },
       .error .noTxtFiles) ∧
    (Except.error Err.noTxtFiles : Except Err (String × Option String)) ≠
      .ok (queryAnswer "q" []) :=
  c7_empty_corpus_fatal
    { fetchOut := .ok [], loadOk := fun _ => true, results := [] } "q"
    { indexExists := false, rebuilds := 0, loadAttempts := 0 } rfl rfl

/-- C10: the fetch step turns an HTTP error or any other exception into an
empty document list, so a query that triggers indexing fails with exactly
the same no-files-to-index error as a genuinely empty corpus — the three
situations are indistinguishable at the public interface. -/
theorem c10_fetch_failure_like_empty_corpus (query : String) (s : St)
    (loadOk : ℕ → Bool) (results : List (Doc × ℚ))
    (hex : s.indexExists = false) :
    fetch_txt_files_from_sharepoint .httpError = [] ∧
    fetch_txt_files_from_sharepoint .otherError = [] ∧
    get_similar_answer_from_documents
        { fetchOut := .httpError, loadOk := loadOk, results := results } query s =
      (s, .error .noTxtFiles) ∧
    get_similar_answer_from_documents
        { fetchOut := .otherError, loadOk := loadOk, results := results } query s =
      (s, .error .noTxtFiles) ∧
    get_similar_answer_from_documents
        { fetchOut := .ok [], loadOk := loadOk, results := results } query s =
      (s, .error .noTxtFiles) := by
  refine ⟨rfl, rfl, ?_, ?_, ?_⟩ <;>
    simp [get_similar_answer_from_documents, index_documents,
      fetch_txt_files_from_sharepoint, hex]

theorem c10_witness :
    fetch_txt_files_from_sharepoint .httpError = [] ∧
    fetch_txt_files_from_sharepoint .otherError = [] ∧
    get_similar_answer_from_documents
        { fetchOut := .httpError, loadOk := fun _ => true, results := [] } "q"
        { indexExists := false, rebuilds := 0, loadAttempts := 0 } =
      ({ indexExists := false, rebuilds := 0, loadAttempts := 0 },
       .error .noTxtFiles) ∧
    get_similar_answer_from_documents
        { fetchOut := .otherError, loadOk := fun _ => true, results := [] } "q"
        { indexExists := false, rebuilds := 0, loadAttempts := 0 } =
      ({ indexExists := false, rebuilds := 0, loadAttempts := 0 },
       .error .noTxtFiles) ∧
    get_similar_answer_from_documents
        { fetchOut := .ok [], loadOk := fun _ => true, results := [] } "q"
        { indexExists := false, rebuilds := 0, loadAttempts := 0 } =
      ({ indexExists := false, rebuilds := 0, loadAttempts := 0 },
       .error .noTxtFiles) :=
  c10_fetch_failure_like_empty_corpus "q"
    { indexExists := false, rebuilds := 0, loadAttempts := 0 }
    (fun _ => true) [] rfl

end ErpSharepoint
